import Mathlib

/-!
Verification development for the structured-data (Schema.org) extraction and
audit engine of the seonavi repository (`src/lib/tools/extract-schema.ts`).

The TypeScript source is shallowly embedded: JSON values parsed by
`JSON.parse` are modelled by the inductive `Json`; each function of the
source file is translated into a Lean function of the same name.  DOM and
library effects that the source delegates to external code (cheerio
selections, `JSON.parse`, regular-expression matching, `new URL`) are
modelled by taking their outcomes as explicit inputs, while every piece of
logic written in the repository itself is translated directly.
-/

-- ==========================================================
-- JSON value model (result of JSON.parse)
-- ==========================================================

/-- A JSON value as produced by `JSON.parse`: null, boolean, number,
string, array or object.  Numbers are modelled as integers; every numeric
literal appearing in the audited code paths is an integer. -/
inductive Json where
  | null : Json
  | bool : Bool → Json
  | num : Int → Json
  | str : String → Json
  | arr : List Json → Json
  | obj : List (String × Json) → Json

/-- Last-binding association lookup.  A JavaScript object produced by
`JSON.parse` keeps the last of duplicate keys, so lookup returns the last
binding of the key. -/
def lookupLast {α : Type} : List (String × α) → String → Option α
  | [], _ => none
  | (k', v) :: rest, k =>
    match lookupLast rest k with
    | some r => some r
    | none => if k' == k then some v else none

/-- JavaScript truthiness of a JSON value (`if (x)`): null, `false`, `0`
and `""` are falsy; every array and object is truthy. -/
def jsTruthy : Json → Bool
  | .null => false
  | .bool b => b
  | .num n => n != 0
  | .str s => s != ""
  | .arr _ => true
  | .obj _ => true

/-- JavaScript property read `x[k]` for a non-null value: an object looks
the key up, every other value yields `undefined` (modelled as `none`).
Reading a property of `null` throws and is handled at each call site. -/
def jsGet : Json → String → Option Json
  | .obj fs, k => lookupLast fs k
  | _, _ => none

/-- `Object.entries(x)`: fields of an object, indexed elements of an array,
indexed single-character strings of a string, and nothing for the other
primitives. -/
def jsEntries : Json → List (String × Json)
  | .obj fs => fs
  | .arr xs => xs.enum.map (fun p => (toString p.1, p.2))
  | .str s => s.toList.enum.map (fun p => (toString p.1, Json.str (String.singleton p.2)))
  | _ => []

/-- JavaScript `x.length`: length of an array or string, the numeric
`length` field of an object when present, `undefined` otherwise.
String length is counted in characters. -/
def jsDotLength : Json → Option Nat
  | .arr xs => some xs.length
  | .str s => some s.length
  | .obj fs =>
    match lookupLast fs "length" with
    | some (.num n) => some n.toNat
    | _ => none
  | _ => none

/-- Rendering of `x.length` inside a template literal: `undefined` when the
value has no length. -/
def lenStr (x : Json) : String :=
  match jsDotLength x with
  | some n => toString n
  | none => "undefined"

/-- `String.prototype.trim`: strip whitespace from both ends.  Implemented
over the character list so that it evaluates by reduction. -/
def trimString (s : String) : String :=
  String.mk (((s.toList.dropWhile Char.isWhitespace).reverse.dropWhile Char.isWhitespace).reverse)

/-- `s.slice(0, n)`: the first `n` characters. -/
def takeStr (s : String) (n : Nat) : String :=
  String.mk (s.toList.take n)

/-- `s.startsWith(pat)`. -/
def startsWithStr (s pat : String) : Bool :=
  pat.toList.isPrefixOf s.toList

/-- Code-unit comparison of two strings, the comparator used by
`Array.prototype.sort()`. -/
def charListLe : List Char → List Char → Bool
  | [], _ => true
  | _ :: _, [] => false
  | a :: as, b :: bs =>
    if a.toNat < b.toNat then true
    else if b.toNat < a.toNat then false
    else charListLe as bs

/-- `a <= b` in code-unit order. -/
def strLe (a b : String) : Bool :=
  charListLe a.toList b.toList

/-- Substring occurrence over character lists, the semantics of
JavaScript `String.prototype.includes`. -/
def hasSubstr (pat : List Char) : List Char → Bool
  | [] => pat.isEmpty
  | c :: t => pat.isPrefixOf (c :: t) || hasSubstr pat t

/-- `s.includes(pat)` for strings. -/
def strIncludes (s pat : String) : Bool :=
  hasSubstr pat.toList s.toList

/-- `a || b` on strings: `b` when `a` is empty (falsy), else `a`. -/
def jsOr (a b : String) : String :=
  if a == "" then b else a

/-- `a || b` where `a` is a possibly-undefined attribute or lookup result:
`b` when `a` is absent or empty, else `a`. -/
def jsOrOpt (a : Option String) (b : String) : String :=
  match a with
  | some s => if s == "" then b else s
  | none => b

/-- Insert a string into a sorted list (ascending lexicographic order). -/
def insertSorted (x : String) : List String → List String
  | [] => [x]
  | y :: ys => if strLe x y then x :: y :: ys else y :: insertSorted x ys

/-- `Array.prototype.sort()` on string arrays: ascending lexicographic
order (code-unit order in JavaScript; the sorted sets in scope are ASCII,
where the two orders agree). -/
def sortStrings : List String → List String
  | [] => []
  | x :: xs => insertSorted x (sortStrings xs)

/-- String conversion used by `Array.prototype.join`: `null`/`undefined`
become the empty string, arrays join their elements with `","`, plain
objects print as `[object Object]`.  The fuel argument bounds nesting
depth and is chosen far above any input in scope. -/
def jsToStrF : Nat → Json → String
  | 0, _ => ""
  | fuel + 1, j =>
    match j with
    | .null => ""
    | .bool b => if b then "true" else "false"
    | .num n => toString n
    | .str s => s
    | .arr xs => String.intercalate "," (xs.map (jsToStrF fuel))
    | .obj _ => "[object Object]"

/-- `xs.join(sep)` on a JavaScript array of JSON values. -/
def joinJs (sep : String) (xs : List Json) : String :=
  String.intercalate sep (xs.map (jsToStrF 512))

/-- `String.prototype.replace` with a plain-string pattern: replace the
first occurrence only. -/
def replaceFirstAux (pat rep : List Char) : List Char → List Char
  | [] => []
  | c :: t =>
    if pat.isPrefixOf (c :: t) then rep ++ (c :: t).drop pat.length
    else c :: replaceFirstAux pat rep t

/-- `s.replace(pat, rep)` replacing the first occurrence of `pat`. -/
def replaceFirst (s pat rep : String) : String :=
  String.mk (replaceFirstAux pat.toList rep.toList s.toList)

/-- `s.replace(/\/$/, "")`: drop a single trailing slash. -/
def stripTrailingSlash (s : String) : String :=
  if s.endsWith "/" then s.dropRight 1 else s

-- ==========================================================
-- Evaluation labels and rule tables (extract-schema.ts, lines 14-43)
-- ==========================================================

def EVAL_GOOD : String := "✅ 良好"

def EVAL_WARN : String := "⚠️ 不足あり"

def EVAL_ERROR : String := "❌ 重大な問題"

/-- Properties required of a LocalBusiness schema. -/
def LOCAL_BUSINESS_REQUIRED : List String := ["name", "address", "telephone"]

/-- Properties recommended for a LocalBusiness schema. -/
def LOCAL_BUSINESS_RECOMMENDED : List String :=
  ["openingHours", "url", "image", "priceRange", "geo", "sameAs", "description", "areaServed"]

/-- The local-business family of type names (FuneralHome is a LocalBusiness
subtype). -/
def FUNERAL_HOME_TYPES : List String :=
  ["FuneralHome", "LocalBusiness", "Organization", "ProfessionalService", "HealthAndBeautyBusiness"]

-- ==========================================================
-- Schema evaluator (SchemaExtractor.evaluateSchema, lines 166-219)
-- ==========================================================

/-- `SchemaExtractor.evaluateSchema`: classify one schema's completeness
from its type string and property bag, returning `(label, note)`. -/
def evaluateSchema (schemaType : String) (props : List (String × Json)) : String × String :=
  if FUNERAL_HOME_TYPES.contains schemaType || strIncludes schemaType "Business" then
    if LOCAL_BUSINESS_REQUIRED.filter (fun k => !((props.map Prod.fst).contains k)) = [] then
      if LOCAL_BUSINESS_RECOMMENDED.filter (fun k => !((props.map Prod.fst).contains k)) = [] then
        (EVAL_GOOD, "必須・推奨プロパティすべて揃っています")
      else
        (EVAL_WARN, "推奨プロパティ不足: " ++ String.intercalate ", "
          (sortStrings (LOCAL_BUSINESS_RECOMMENDED.filter (fun k => !((props.map Prod.fst).contains k)))))
    else
      (EVAL_WARN, "必須プロパティ不足: " ++ String.intercalate ", "
        (sortStrings (LOCAL_BUSINESS_REQUIRED.filter (fun k => !((props.map Prod.fst).contains k)))))
  else if schemaType = "BreadcrumbList" then
    match lookupLast props "itemListElement" with
    | some v =>
      if jsTruthy v && (match jsDotLength v with | some n => decide (n > 0) | none => false) then
        (EVAL_GOOD, "")
      else (EVAL_WARN, "itemListElement が空または未設定")
    | none => (EVAL_WARN, "itemListElement が空または未設定")
  else if schemaType = "FAQPage" then
    match lookupLast props "mainEntity" with
    | some items =>
      if jsTruthy items && (match jsDotLength items with | some n => decide (n ≥ 3) | none => false) then
        (EVAL_GOOD, "FAQ " ++ lenStr items ++ " 件")
      else
        (EVAL_WARN, "FAQ件数が少ない（" ++ (if jsTruthy items then lenStr items else "0") ++ "件）")
    | none => (EVAL_WARN, "FAQ件数が少ない（0件）")
  else if (props.map Prod.fst).eraseDups.length = 0 then
    (EVAL_ERROR, "プロパティが空です")
  else
    (EVAL_GOOD, toString (props.map Prod.fst).eraseDups.length ++ "個のプロパティ")

-- ==========================================================
-- Structured-data items and JSON-LD extraction
-- (SchemaExtractor.extractJsonLd / buildSchemaItem, lines 103-163)
-- ==========================================================

/-- One extracted schema instance (`SchemaItem` in the source). -/
structure SchemaItem where
  schemaType : String
  source : String
  properties : List (String × Json)
  raw : String
  evalLabel : String
  evalNote : String

/-- The item pushed by the `catch` arm of `extractJsonLd`: `e` is the
string rendering of the caught exception, interpolated into the note. -/
def parseErrorItem (raw e : String) : SchemaItem :=
  { schemaType := "(JSON解析エラー)"
    source := "json-ld"
    properties := []
    raw := takeStr raw 200
    evalLabel := EVAL_ERROR
    evalNote := "JSONパースエラー: " ++ e }

/-- `SchemaExtractor.buildSchemaItem`.  Returns `Except` because the body
can throw: reading `@type` of a `null` node throws a `TypeError`, and a
truthy non-string non-array `@type` survives `schemaType || "不明"` and
then throws inside `evaluateSchema` at `schemaType.includes("Business")`.
An `@type` array is joined with `" / "`; a falsy result is replaced by
`"不明"`; keys starting with `"@"` are excluded from the properties. -/
def buildSchemaItem (data : Json) (raw : String) (source : String) :
    Except String SchemaItem :=
  match data with
  | .null => .error "TypeError: Cannot read properties of null (reading '@type')"
  | _ =>
    let t : Json :=
      match jsGet data "@type" with
      | some (.arr xs) => .str (joinJs " / " xs)
      | some v => v
      | none => .null
    match (if jsTruthy t then t else .str "不明") with
    | .str s =>
      let props := (jsEntries data).filter (fun kv => !(startsWithStr kv.1 "@"))
      .ok { schemaType := s
            source := source
            properties := props
            raw := takeStr raw 500
            evalLabel := (evaluateSchema s props).1
            evalNote := (evaluateSchema s props).2 }
    | _ => .error "TypeError: schemaType.includes is not a function"

/-- The `for (const node of data["@graph"])` loop: one item per member
until a member throws; a throw is caught by the enclosing `catch`, which
pushes a single error item, discarding the remaining members. -/
def graphLoop (raw : String) : List Json → List SchemaItem
  | [] => []
  | n :: ns =>
    match buildSchemaItem n raw "json-ld" with
    | .ok it => it :: graphLoop raw ns
    | .error e => [parseErrorItem raw e]

/-- The `try` body of `extractJsonLd` for one successfully parsed script:
a truthy `@graph` is iterated (`for...of` iterates arrays element-wise and
strings character-wise, and throws on other truthy values); otherwise the
parsed value itself becomes a single item. -/
def jsonLdScriptItems (raw : String) (data : Json) : List SchemaItem :=
  match data with
  | .null => [parseErrorItem raw "TypeError: Cannot read properties of null (reading '@graph')"]
  | _ =>
    match jsGet data "@graph" with
    | some g =>
      if jsTruthy g then
        match g with
        | .arr nodes => graphLoop raw nodes
        | .str s => graphLoop raw (s.toList.map (fun c => Json.str (String.singleton c)))
        | _ => [parseErrorItem raw "TypeError: data is not iterable"]
      else
        match buildSchemaItem data raw "json-ld" with
        | .ok it => [it]
        | .error e => [parseErrorItem raw e]
    | none =>
      match buildSchemaItem data raw "json-ld" with
      | .ok it => [it]
      | .error e => [parseErrorItem raw e]

/-- Handling of one `<script type="application/ld+json">` tag: the script
text is trimmed; an empty result is skipped (`if (!raw) return`); then the
text is parsed (`JSON.parse`, whose outcome is the second component of the
input pair) and a parse failure is converted into a single error item. -/
def scriptItems : String × Except String Json → List SchemaItem
  | (txt, parsed) =>
    if trimString txt = "" then []
    else
      match parsed with
      | .error e => [parseErrorItem (trimString txt) e]
      | .ok data => jsonLdScriptItems (trimString txt) data

/-- `SchemaExtractor.extractJsonLd`: each script tag is processed in
isolation and the resulting items are concatenated in document order.
A script is modelled as its text together with the outcome of
`JSON.parse` on the trimmed text. -/
def extractJsonLd : List (String × Except String Json) → List SchemaItem
  | [] => []
  | s :: rest => scriptItems s ++ extractJsonLd rest

-- ==========================================================
-- Microdata and RDFa extraction
-- (SchemaExtractor.extractMicrodata / extractRdfa, lines 222-293)
-- ==========================================================

/-- One `[itemprop]` descendant of an `itemscope` element: the attribute
values and the trimmed-text fallback, as read from the DOM. -/
structure MicroProp where
  itemprop : Option String
  content : Option String
  href : Option String
  src : Option String
  text : String

/-- One `[itemscope]` element: its `itemtype` attribute and its
`[itemprop]` descendants in document order. -/
structure MicroElem where
  itemtypeAttr : Option String
  props : List MicroProp

/-- `SchemaExtractor.extractMicrodata` for one element: the schema type is
the last path segment of the `itemtype` URL (or `不明`); property values
prefer `content`, then `href`, then `src`, then trimmed text capped at
100 characters; empty property names are skipped. -/
def extractMicrodata (els : List MicroElem) : List SchemaItem :=
  els.map fun el =>
    let itemtype := jsOrOpt el.itemtypeAttr ""
    let schemaType :=
      if itemtype == "" then "不明"
      else jsOr (((itemtype.splitOn "/").getLast?).getD "") "不明"
    let props := el.props.foldl
      (fun acc pe =>
        let name := jsOrOpt pe.itemprop ""
        let value := jsOrOpt pe.content (jsOrOpt pe.href (jsOrOpt pe.src (takeStr (trimString pe.text) 100)))
        if name == "" then acc else acc ++ [(name, Json.str value)])
      []
    { schemaType := schemaType
      source := "microdata"
      properties := props
      raw := ""
      evalLabel := (evaluateSchema schemaType props).1
      evalNote := (evaluateSchema schemaType props).2 }

/-- One `[property]` descendant of a `typeof` element. -/
structure RdfaProp where
  property : Option String
  content : Option String
  text : String

/-- One `[typeof]` element and its `[property]` descendants. -/
structure RdfaElem where
  typeofAttr : Option String
  props : List RdfaProp

/-- `SchemaExtractor.extractRdfa` for one element: the schema type is the
raw `typeof` attribute (or `不明`); property names drop everything before
the last colon; values prefer `content`, then trimmed text capped at 100
characters; empty names are skipped. -/
def extractRdfa (els : List RdfaElem) : List SchemaItem :=
  els.map fun el =>
    let schemaType := jsOrOpt el.typeofAttr "不明"
    let props := el.props.foldl
      (fun acc pe =>
        let rawName := jsOrOpt pe.property ""
        let name := (((rawName.splitOn ":").getLast?).getD "")
        let value := jsOrOpt pe.content (takeStr (trimString pe.text) 100)
        if name == "" then acc else acc ++ [(name, Json.str value)])
      []
    { schemaType := schemaType
      source := "rdfa"
      properties := props
      raw := ""
      evalLabel := (evaluateSchema schemaType props).1
      evalNote := (evaluateSchema schemaType props).2 }

-- ==========================================================
-- Page model and page-info extraction
-- (SchemaExtractor constructor and extractPageInfo, lines 92-100, 296-333)
-- ==========================================================

/-- The inputs the extractor reads from one page, i.e. the outcomes of the
DOM queries, regular-expression matches and URL parsing that the source
delegates to cheerio, the RegExp engine and `new URL`:
`scripts` are the JSON-LD script tags (text and `JSON.parse` outcome of
the trimmed text), `titleEl` the text of the `<title>` element when one
exists, the four `*Match` fields the first regex match of the respective
pattern over the page text, and `hostname` the hostname of `url` when URL
parsing succeeds (the constructor's `try/catch` turns a failure into an
empty domain). -/
structure PageModel where
  scripts : List (String × Except String Json)
  microEls : List MicroElem
  rdfaEls : List RdfaElem
  pageText : String
  titleEl : Option String
  phoneMatch : Option String
  postalMatch : Option String
  addressMatch : Option String
  hoursMatch : Option String
  url : String
  hostname : Option String

/-- `SchemaExtractor.extractPageInfo`: business information for JSON-LD
generation.  Every key is always bound, to the match result when one
exists and to the empty string otherwise; the postal code strips the
leading `〒` marker and is trimmed. -/
def extractPageInfo (p : PageModel) : List (String × String) :=
  [("title", match p.titleEl with | some t => trimString t | none => ""),
   ("telephone", match p.phoneMatch with | some m => m | none => ""),
   ("postal_code", match p.postalMatch with | some m => trimString (replaceFirst m "〒" "") | none => ""),
   ("address", match p.addressMatch with | some m => m | none => ""),
   ("opening_hours", match p.hoursMatch with | some m => m | none => ""),
   ("url", p.url),
   ("domain", match p.hostname with | some h => h | none => "")]

-- ==========================================================
-- Missing-schema detection (SchemaAuditor.checkMissingSchemas, lines 381-464)
-- ==========================================================

/-- A schema type judged absent (`MissingSchema` in the source). -/
structure MissingSchema where
  type : String
  reason : String

/-- The three priority buckets filled by `checkMissingSchemas`. -/
structure MissingBuckets where
  high : List MissingSchema
  mid : List MissingSchema
  low : List MissingSchema

def lbGap : MissingSchema :=
  { type := "LocalBusiness / FuneralHome"
    reason := "ローカルSEOの最重要Schema。Googleマップ表示に直結。" }

def bcGap : MissingSchema :=
  { type := "BreadcrumbList"
    reason := "パンくずリッチスニペット。検索結果のURLをパス表示に変換してCTR向上。" }

def faqGap : MissingSchema :=
  { type := "FAQPage"
    reason := "FAQコンテンツが存在するがSchemaなし。FAQ形式のリッチスニペットが取得可能。" }

def arGap : MissingSchema :=
  { type := "AggregateRating"
    reason := "口コミ・評価コンテンツがあるがSchema未実装。星評価スニペット取得可能。" }

def serviceGap : MissingSchema :=
  { type := "Service"
    reason := "提供サービスをSchema化することでリッチスニペット取得の可能性。" }

def websiteGap : MissingSchema :=
  { type := "WebSite"
    reason := "サイト検索ボックス（SiteLinksSearchBox）の有効化に必要。" }

def imageGap : MissingSchema :=
  { type := "ImageObject"
    reason := "画像のSEO強化。Googleの画像検索での表示改善。" }

/-- FAQ indicator substrings checked by the missing-schema detector. -/
def faqIndicators : List String := ["よくある質問", "FAQ", "Q&A", "Q.", "A."]

/-- Review indicator substrings checked by the missing-schema detector. -/
def reviewIndicators : List String := ["口コミ", "レビュー", "評価", "評判", "星", "★"]

/-- `SchemaAuditor.checkMissingSchemas`: independent boolean checks over
the set of found schema types and the page text, appended in source
order into the three priority buckets. -/
def checkMissingSchemas (foundTypes : List String) (pageText : String) : MissingBuckets :=
  let hasLocalBusiness := FUNERAL_HOME_TYPES.any (fun t => foundTypes.contains t)
  let hasFaqContent := faqIndicators.any (fun ind => strIncludes pageText ind)
  let hasReview := reviewIndicators.any (fun ind => strIncludes pageText ind)
  { high :=
      (if hasLocalBusiness then [] else [lbGap]) ++
      (if foundTypes.contains "BreadcrumbList" then [] else [bcGap]) ++
      (if hasFaqContent && !(foundTypes.contains "FAQPage") then [faqGap] else [])
    mid :=
      (if hasReview && !(foundTypes.contains "AggregateRating") then [arGap] else []) ++
      (if foundTypes.contains "Service" then [] else [serviceGap]) ++
      (if foundTypes.contains "WebSite" then [] else [websiteGap])
    low :=
      if foundTypes.contains "ImageObject" then [] else [imageGap] }

-- ==========================================================
-- JSON-LD synthesis (SchemaAuditor.generateJsonLd, lines 467-592)
-- ==========================================================

/-- One synthesized JSON-LD snippet (`GeneratedJsonLd` in the source). -/
structure GeneratedJsonLd where
  priority : String
  type : String
  schema : Json

/-- The FuneralHome / LocalBusiness template, filled from the extracted
page info with placeholder strings for everything unavailable. -/
def lbSchema (info : List (String × String)) : Json :=
  Json.obj
    [("@context", Json.str "https://schema.org"),
     ("@type", Json.str "FuneralHome"),
     ("name", Json.str (jsOr (trimString (((jsOrOpt (lookupLast info "title") "").splitOn "|").headD ""))
        "（サイトタイトルから取得）")),
     ("url", Json.str (jsOrOpt (lookupLast info "url") "")),
     ("telephone", Json.str (jsOrOpt (lookupLast info "telephone") "（電話番号を入力）")),
     ("address", Json.obj
        [("@type", Json.str "PostalAddress"),
         ("streetAddress", Json.str (jsOrOpt (lookupLast info "address") "（住所を入力）")),
         ("postalCode", Json.str (jsOrOpt (lookupLast info "postal_code") "（郵便番号を入力）")),
         ("addressRegion", Json.str "（都道府県を入力）"),
         ("addressCountry", Json.str "JP")]),
     ("openingHoursSpecification", Json.arr
        [Json.obj
          [("@type", Json.str "OpeningHoursSpecification"),
           ("dayOfWeek", Json.arr
              [Json.str "Monday", Json.str "Tuesday", Json.str "Wednesday", Json.str "Thursday",
               Json.str "Friday", Json.str "Saturday", Json.str "Sunday"]),
           ("opens", Json.str "00:00"),
           ("closes", Json.str "23:59")]]),
     ("priceRange", Json.str "¥¥"),
     ("image", Json.str ((jsOrOpt (lookupLast info "url") "") ++ "（OGP画像URLを入力）")),
     ("description", Json.str "（メタディスクリプションを入力）"),
     ("sameAs", Json.arr
        [Json.str "（GoogleビジネスプロフィールURLを入力）",
         Json.str "（FacebookページURLを入力）"])]

/-- The two-level BreadcrumbList template. -/
def bcSchema (info : List (String × String)) : Json :=
  Json.obj
    [("@context", Json.str "https://schema.org"),
     ("@type", Json.str "BreadcrumbList"),
     ("itemListElement", Json.arr
        [Json.obj
          [("@type", Json.str "ListItem"),
           ("position", Json.num 1),
           ("name", Json.str "ホーム"),
           ("item", Json.str (stripTrailingSlash (jsOrOpt (lookupLast info "url") "") ++ "/"))],
         Json.obj
          [("@type", Json.str "ListItem"),
           ("position", Json.num 2),
           ("name", Json.str "（現在のページ名を入力）"),
           ("item", Json.str ((jsOrOpt (lookupLast info "url") "") ++ "（現在のページURLを入力）"))]])]

/-- The FAQPage template with two placeholder question/answer pairs. -/
def faqSchemaGen : Json :=
  Json.obj
    [("@context", Json.str "https://schema.org"),
     ("@type", Json.str "FAQPage"),
     ("mainEntity", Json.arr
        [Json.obj
          [("@type", Json.str "Question"),
           ("name", Json.str "（FAQの質問1を入力）"),
           ("acceptedAnswer", Json.obj
              [("@type", Json.str "Answer"),
               ("text", Json.str "（FAQの回答1を入力）")])],
         Json.obj
          [("@type", Json.str "Question"),
           ("name", Json.str "（FAQの質問2を入力）"),
           ("acceptedAnswer", Json.obj
              [("@type", Json.str "Answer"),
               ("text", Json.str "（FAQの回答2を入力）")])]])]

/-- FAQ indicator substrings checked by the snippet generator (a shorter
list than the detector's `faqIndicators`). -/
def faqIndicatorsGen : List String := ["よくある質問", "FAQ", "Q&A"]

/-- `SchemaAuditor.generateJsonLd`: synthesize high-priority JSON-LD.  The
local-business snippet is generated when no family type is present or a
present family item was evaluated as warning; the breadcrumb snippet when
`BreadcrumbList` is absent; the FAQ snippet when a generator FAQ indicator
occurs in the page text and `FAQPage` is absent. -/
def generateJsonLd (foundSchemas : List SchemaItem) (foundTypes : List String)
    (info : List (String × String)) (pageText : String) : List GeneratedJsonLd :=
  let hasLb := FUNERAL_HOME_TYPES.any (fun t => foundTypes.contains t)
  (if !hasLb || foundSchemas.any
        (fun s => FUNERAL_HOME_TYPES.contains s.schemaType && s.evalLabel == EVAL_WARN) then
    [{ priority := "高", type := "FuneralHome（LocalBusiness派生）", schema := lbSchema info }]
  else []) ++
  (if foundTypes.contains "BreadcrumbList" then []
   else [{ priority := "高", type := "BreadcrumbList", schema := bcSchema info }]) ++
  (if faqIndicatorsGen.any (fun ind => strIncludes pageText ind)
      && !(foundTypes.contains "FAQPage") then
    [{ priority := "高", type := "FAQPage", schema := faqSchemaGen }]
  else [])

-- ==========================================================
-- Audit aggregation (SchemaAuditor.audit, lines 347-378)
-- ==========================================================

/-- The aggregate audit result (`SchemaAuditResult` in the source). -/
structure SchemaAuditResult where
  url : String
  foundSchemas : List SchemaItem
  missingHigh : List MissingSchema
  missingMid : List MissingSchema
  missingLow : List MissingSchema
  generatedJsonLd : List GeneratedJsonLd
  pageInfo : List (String × String)

/-- `SchemaAuditor.audit`: extract all items (JSON-LD, then Microdata,
then RDFa), collect the page info, compute the found-type set, detect
missing schemas and synthesize snippets. -/
def audit (p : PageModel) : SchemaAuditResult :=
  let foundSchemas := extractJsonLd p.scripts ++ extractMicrodata p.microEls ++ extractRdfa p.rdfaEls
  let pageInfo := extractPageInfo p
  let foundTypes := foundSchemas.map (fun s => s.schemaType)
  let buckets := checkMissingSchemas foundTypes p.pageText
  { url := p.url
    foundSchemas := foundSchemas
    missingHigh := buckets.high
    missingMid := buckets.mid
    missingLow := buckets.low
    generatedJsonLd := generateJsonLd foundSchemas foundTypes pageInfo p.pageText
    pageInfo := pageInfo }

-- ==========================================================
-- Markdown report (formatAuditReport, lines 600-673)
-- ==========================================================

/-- A run of `n` spaces, for `JSON.stringify` indentation. -/
def spacesStr (n : Nat) : String :=
  String.mk (List.replicate n ' ')

/-- Escaping of one character inside a JSON string literal. -/
def escapeJsonChar (c : Char) : String :=
  if c = '"' then "\\\""
  else if c = '\\' then "\\\\"
  else if c = '\n' then "\\n"
  else String.singleton c

/-- Escaping of a JSON string literal body. -/
def escapeJson (s : String) : String :=
  String.join (s.toList.map escapeJsonChar)

/-- `JSON.stringify(x, null, 2)`: pretty printing with two-space
indentation.  The fuel argument bounds nesting depth and exceeds the depth
of every schema object in scope. -/
def stringifyF : Nat → Nat → Json → String
  | 0, _, _ => ""
  | fuel + 1, ind, j =>
    match j with
    | .null => "null"
    | .bool b => if b then "true" else "false"
    | .num n => toString n
    | .str s => "\"" ++ escapeJson s ++ "\""
    | .arr [] => "[]"
    | .arr xs =>
      "[\n" ++ String.intercalate ",\n"
        (xs.map (fun x => spacesStr (ind + 2) ++ stringifyF fuel (ind + 2) x)) ++
      "\n" ++ spacesStr ind ++ "]"
    | .obj [] => "\x7b\x7d"
    | .obj fs =>
      "\x7b\n" ++ String.intercalate ",\n"
        (fs.map (fun kv =>
          spacesStr (ind + 2) ++ "\"" ++ escapeJson kv.1 ++ "\": " ++ stringifyF fuel (ind + 2) kv.2)) ++
      "\n" ++ spacesStr ind ++ "\x7d"

/-- `JSON.stringify(x, null, 2)` at top level. -/
def stringifyJson (j : Json) : String :=
  stringifyF 512 0 j

/-- `formatAuditReport`: deterministic Markdown rendering of an audit
result, line for line as in the source. -/
def formatAuditReport (result : SchemaAuditResult) : String :=
  let header : List String :=
    ["# 構造化データ（Schema）監査レポート", "",
     "**対象URL:** " ++ result.url, "",
     "---", "",
     "## 既存Schema一覧", ""]
  let schemaLines : List String :=
    if result.foundSchemas.length > 0 then
      ["| Schema種別 | ソース | 主要プロパティ | 評価 | 備考 |",
       "|---|---|---|---|---|"] ++
      result.foundSchemas.map (fun s =>
        "| " ++ s.schemaType ++ " | " ++ s.source ++ " | " ++
        String.intercalate ", " ((s.properties.map Prod.fst).eraseDups.take 6) ++ " | " ++
        s.evalLabel ++ " | " ++ s.evalNote ++ " |")
    else
      ["**構造化データは検出されませんでした。**"]
  let missingHeader : List String :=
    ["", "---", "",
     "## 不足・弱いSchema（優先度付き）", "",
     "| 優先度 | Schema種別 | 理由 |",
     "|---|---|---|"]
  let highLines := result.missingHigh.map (fun i => "| **高** | " ++ i.type ++ " | " ++ i.reason ++ " |")
  let midLines := result.missingMid.map (fun i => "| 中 | " ++ i.type ++ " | " ++ i.reason ++ " |")
  let lowLines := result.missingLow.map (fun i => "| 低 | " ++ i.type ++ " | " ++ i.reason ++ " |")
  let noneLine : List String :=
    if result.missingHigh.isEmpty && result.missingMid.isEmpty && result.missingLow.isEmpty then
      ["| - | なし | 主要Schemaは実装済みです |"]
    else []
  let genHeader : List String :=
    ["", "---", "",
     "## 優先度「高」のJSON-LD（実装用）", ""]
  let genLines : List String :=
    (result.generatedJsonLd.map (fun item =>
      ["### " ++ item.type, "", "```json", stringifyJson item.schema, "```", ""])).flatten
  String.intercalate "\n"
    (header ++ schemaLines ++ missingHeader ++ highLines ++ midLines ++ lowLines ++
     noneLine ++ genHeader ++ genLines)

-- ==========================================================
-- Helper lemmas
-- ==========================================================

/-- Badness tier of an evaluation label: good is 0, warning 1, error 2. -/
def labelTier (l : String) : Nat :=
  if l = EVAL_GOOD then 0 else if l = EVAL_WARN then 1 else 2

theorem extractJsonLd_append (a b : List (String × Except String Json)) :
    extractJsonLd (a ++ b) = extractJsonLd a ++ extractJsonLd b := by
  induction a with
  | nil => rfl
  | cons s t ih => simp [extractJsonLd, ih]

theorem jsToStrF_str (s : String) : jsToStrF 512 (Json.str s) = s := rfl

theorem joinJs_strs (sep : String) (ts : List String) :
    joinJs sep (ts.map Json.str) = String.intercalate sep ts := by
  unfold joinJs
  rw [List.map_map]
  rw [show (jsToStrF 512 ∘ Json.str) = id from funext fun s => rfl]
  rw [List.map_id]

theorem graphLoop_forall₂ (raw : String) (nodes : List Json) (its : List SchemaItem)
    (h : List.Forall₂ (fun n it => buildSchemaItem n raw "json-ld" = Except.ok it) nodes its) :
    graphLoop raw nodes = its := by
  induction h with
  | nil => rfl
  | cons hne _ ih => simp [graphLoop, hne, ih]

theorem filter_not_contains_nil (l keys : List String)
    (h : ∀ k ∈ l, keys.contains k = true) :
    l.filter (fun k => !(keys.contains k)) = [] := by
  induction l with
  | nil => rfl
  | cons a t ih =>
    rw [List.filter_cons, h a (List.mem_cons_self a t)]
    rw [if_neg (by simp)]
    exact ih (fun k hk => h k (List.mem_cons_of_mem a hk))

theorem contains_filter_ne (props : List (String × Json)) (r : String) :
    (((props.filter (fun p => p.1 != r)).map Prod.fst).contains r) = false := by
  induction props with
  | nil => rfl
  | cons p t ih =>
    by_cases h : p.1 = r
    · simp [List.filter_cons, h, ih]
    · have h' : ¬r = p.1 := fun hh => h hh.symm
      simp [List.filter_cons, h, h', ih]

-- ==========================================================
-- Claims
-- ==========================================================

/-- C1: for a schema type in the local-business family (member of
`FUNERAL_HOME_TYPES` or containing the substring `"Business"`), the
evaluator returns a warning listing exactly the missing required
properties (sorted, comma-joined) when any of name/address/telephone is
absent; good with the fixed note when required and recommended are all
present; and a warning listing exactly the missing recommended properties
(sorted) when only recommended ones are absent. -/
theorem c1_local_business_eval (st : String) (props : List (String × Json))
    (hfam : FUNERAL_HOME_TYPES.contains st = true ∨ strIncludes st "Business" = true) :
    (LOCAL_BUSINESS_REQUIRED.filter (fun k => !((props.map Prod.fst).contains k)) ≠ [] →
      evaluateSchema st props =
        (EVAL_WARN, "必須プロパティ不足: " ++ String.intercalate ", "
          (sortStrings (LOCAL_BUSINESS_REQUIRED.filter (fun k => !((props.map Prod.fst).contains k)))))) ∧
    (LOCAL_BUSINESS_REQUIRED.filter (fun k => !((props.map Prod.fst).contains k)) = [] →
     LOCAL_BUSINESS_RECOMMENDED.filter (fun k => !((props.map Prod.fst).contains k)) = [] →
      evaluateSchema st props = (EVAL_GOOD, "必須・推奨プロパティすべて揃っています")) ∧
    (LOCAL_BUSINESS_REQUIRED.filter (fun k => !((props.map Prod.fst).contains k)) = [] →
     LOCAL_BUSINESS_RECOMMENDED.filter (fun k => !((props.map Prod.fst).contains k)) ≠ [] →
      evaluateSchema st props =
        (EVAL_WARN, "推奨プロパティ不足: " ++ String.intercalate ", "
          (sortStrings (LOCAL_BUSINESS_RECOMMENDED.filter (fun k => !((props.map Prod.fst).contains k)))))) := by
  have hc : (FUNERAL_HOME_TYPES.contains st || strIncludes st "Business") = true := by
    rcases hfam with h | h
    · rw [h, Bool.true_or]
    · rw [h, Bool.or_true]
  refine ⟨?_, ?_, ?_⟩
  · intro hm
    simp only [evaluateSchema]
    rw [if_pos hc, if_neg hm]
  · intro hm hr
    simp only [evaluateSchema]
    rw [if_pos hc, if_pos hm, if_pos hr]
  · intro hm hr
    simp only [evaluateSchema]
    rw [if_pos hc, if_pos hm, if_neg hr]

theorem c1_local_business_eval_witness :
    evaluateSchema "LocalBusiness" [("name", Json.str "x")] =
      (EVAL_WARN, "必須プロパティ不足: address, telephone") := by
  have h := (c1_local_business_eval "LocalBusiness" [("name", Json.str "x")]
    (Or.inl (by decide))).1 (by decide)
  exact h.trans (by decide)

/-- C5: for an item of type exactly `FAQPage`, the evaluator returns good
with a note stating the entry count when `mainEntity` is an array with at
least 3 entries, and a warning reporting the actual count otherwise
(0 when `mainEntity` is absent). -/
theorem c5_faqpage_eval (props : List (String × Json)) :
    (∀ xs : List Json, lookupLast props "mainEntity" = some (Json.arr xs) →
      evaluateSchema "FAQPage" props =
        if xs.length ≥ 3 then (EVAL_GOOD, "FAQ " ++ toString xs.length ++ " 件")
        else (EVAL_WARN, "FAQ件数が少ない（" ++ toString xs.length ++ "件）")) ∧
    (lookupLast props "mainEntity" = none →
      evaluateSchema "FAQPage" props = (EVAL_WARN, "FAQ件数が少ない（0件）")) := by
  have hstep : ∀ ps : List (String × Json), evaluateSchema "FAQPage" ps =
      (match lookupLast ps "mainEntity" with
       | some items =>
         if jsTruthy items &&
             (match jsDotLength items with | some n => decide (n ≥ 3) | none => false) then
           (EVAL_GOOD, "FAQ " ++ lenStr items ++ " 件")
         else
           (EVAL_WARN, "FAQ件数が少ない（" ++ (if jsTruthy items then lenStr items else "0") ++ "件）")
       | none => (EVAL_WARN, "FAQ件数が少ない（0件）")) := fun ps => rfl
  constructor
  · intro xs hx
    rw [hstep, hx]
    by_cases h3 : xs.length ≥ 3
    · simp [jsTruthy, jsDotLength, lenStr, h3]
    · simp [jsTruthy, jsDotLength, lenStr, h3]
  · intro hx
    rw [hstep, hx]

theorem c5_faqpage_eval_witness :
    evaluateSchema "FAQPage" [("mainEntity", Json.arr [Json.null, Json.null, Json.null])] =
      (EVAL_GOOD, "FAQ 3 件") ∧
    evaluateSchema "FAQPage" [("mainEntity", Json.arr [Json.null, Json.null])] =
      (EVAL_WARN, "FAQ件数が少ない（2件）") := by
  constructor
  · have h := (c5_faqpage_eval [("mainEntity", Json.arr [Json.null, Json.null, Json.null])]).1
      [Json.null, Json.null, Json.null] rfl
    exact h.trans (by decide)
  · have h := (c5_faqpage_eval [("mainEntity", Json.arr [Json.null, Json.null])]).1
      [Json.null, Json.null] rfl
    exact h.trans (by decide)

/-- C6: for a local-business-family item with all required properties
present, removing one required property (holding everything else fixed)
yields the warning label; the label never improves, and it strictly
worsens exactly from the good tier. -/
theorem c6_required_monotone (st : String) (props : List (String × Json)) (r : String)
    (hfam : FUNERAL_HOME_TYPES.contains st = true ∨ strIncludes st "Business" = true)
    (hreq : r ∈ LOCAL_BUSINESS_REQUIRED)
    (hall : ∀ k ∈ LOCAL_BUSINESS_REQUIRED, ((props.map Prod.fst).contains k) = true) :
    (evaluateSchema st (props.filter (fun p => p.1 != r))).1 = EVAL_WARN ∧
    ((evaluateSchema st props).1 = EVAL_GOOD ∨ (evaluateSchema st props).1 = EVAL_WARN) ∧
    labelTier (evaluateSchema st props).1 ≤
      labelTier (evaluateSchema st (props.filter (fun p => p.1 != r))).1 ∧
    ((evaluateSchema st props).1 = EVAL_GOOD →
      labelTier (evaluateSchema st props).1 <
        labelTier (evaluateSchema st (props.filter (fun p => p.1 != r))).1) := by
  have hc : (FUNERAL_HOME_TYPES.contains st || strIncludes st "Business") = true := by
    rcases hfam with h | h
    · rw [h, Bool.true_or]
    · rw [h, Bool.or_true]
  have hmiss : LOCAL_BUSINESS_REQUIRED.filter (fun k => !((props.map Prod.fst).contains k)) = [] :=
    filter_not_contains_nil _ _ hall
  have hmem : r ∈ LOCAL_BUSINESS_REQUIRED.filter
      (fun k => !((((props.filter (fun p => p.1 != r)).map Prod.fst).contains k))) := by
    refine List.mem_filter.mpr ⟨hreq, ?_⟩
    rw [contains_filter_ne]
    rfl
  have hne : LOCAL_BUSINESS_REQUIRED.filter
      (fun k => !((((props.filter (fun p => p.1 != r)).map Prod.fst).contains k))) ≠ [] :=
    List.ne_nil_of_mem hmem
  have hafter : (evaluateSchema st (props.filter (fun p => p.1 != r))).1 = EVAL_WARN := by
    simp only [evaluateSchema]
    rw [if_pos hc, if_neg hne]
  by_cases hrec : LOCAL_BUSINESS_RECOMMENDED.filter (fun k => !((props.map Prod.fst).contains k)) = []
  · have hbefore : (evaluateSchema st props).1 = EVAL_GOOD := by
      simp only [evaluateSchema]
      rw [if_pos hc, if_pos hmiss, if_pos hrec]
    refine ⟨hafter, Or.inl hbefore, ?_, ?_⟩
    · rw [hbefore, hafter]
      decide
    · intro _
      rw [hbefore, hafter]
      decide
  · have hbefore : (evaluateSchema st props).1 = EVAL_WARN := by
      simp only [evaluateSchema]
      rw [if_pos hc, if_pos hmiss, if_neg hrec]
    refine ⟨hafter, Or.inr hbefore, ?_, ?_⟩
    · rw [hbefore, hafter]
    · intro hg
      rw [hbefore] at hg
      exact absurd hg (by decide)

theorem c6_required_monotone_witness :
    (evaluateSchema "LocalBusiness"
      ([("name", Json.str "a"), ("address", Json.str "b"), ("telephone", Json.str "c")].filter
        (fun p => p.1 != "name"))).1 = EVAL_WARN ∧
    ((evaluateSchema "LocalBusiness"
        [("name", Json.str "a"), ("address", Json.str "b"), ("telephone", Json.str "c")]).1 = EVAL_GOOD ∨
     (evaluateSchema "LocalBusiness"
        [("name", Json.str "a"), ("address", Json.str "b"), ("telephone", Json.str "c")]).1 = EVAL_WARN) ∧
    labelTier (evaluateSchema "LocalBusiness"
        [("name", Json.str "a"), ("address", Json.str "b"), ("telephone", Json.str "c")]).1 ≤
      labelTier (evaluateSchema "LocalBusiness"
        ([("name", Json.str "a"), ("address", Json.str "b"), ("telephone", Json.str "c")].filter
          (fun p => p.1 != "name"))).1 ∧
    ((evaluateSchema "LocalBusiness"
        [("name", Json.str "a"), ("address", Json.str "b"), ("telephone", Json.str "c")]).1 = EVAL_GOOD →
      labelTier (evaluateSchema "LocalBusiness"
          [("name", Json.str "a"), ("address", Json.str "b"), ("telephone", Json.str "c")]).1 <
        labelTier (evaluateSchema "LocalBusiness"
          ([("name", Json.str "a"), ("address", Json.str "b"), ("telephone", Json.str "c")].filter
            (fun p => p.1 != "name"))).1) :=
  c6_required_monotone "LocalBusiness"
    [("name", Json.str "a"), ("address", Json.str "b"), ("telephone", Json.str "c")] "name"
    (Or.inl (by decide)) (by decide) (by decide)

/-- C2 counterexample: a parsed script whose `@graph` is the two-member
array `[null, null]` produces ONE item, not two: `buildSchemaItem` on the
first `null` member throws (`null["@type"]`), the enclosing `catch`
pushes a single error item, and the second member is never processed.
This refutes the claim that a `@graph` array with N members always yields
exactly N items. -/
theorem c2_jsonld_counterexample :
    (extractJsonLd [("x", Except.ok (Json.obj
        [("@graph", Json.arr [Json.null, Json.null])]))]).length = 1 ∧
    (extractJsonLd [("x", Except.ok (Json.obj
        [("@graph", Json.arr [Json.null, Json.null])]))]).length ≠ 2 := by
  exact ⟨rfl, by decide⟩

/-- C2 (amended): for a script with nonempty trimmed text parsing to a
JSON object: with no `@graph` key, extraction emits exactly the one item
built from the object whenever item-building succeeds, and when the
`@type` is an array of strings with nonempty join the item's schemaType is
the `" / "`-join; with `@graph` an array whose members each build
successfully, extraction emits exactly one item per member and none for
the wrapper. -/
theorem c2_jsonld_amended (txt : String) (fields : List (String × Json))
    (htrim : trimString txt ≠ "") :
    ((lookupLast fields "@graph" = none →
       (∀ it : SchemaItem,
          buildSchemaItem (Json.obj fields) (trimString txt) "json-ld" = Except.ok it →
          extractJsonLd [(txt, Except.ok (Json.obj fields))] = [it]) ∧
       (∀ ts : List String,
          lookupLast fields "@type" = some (Json.arr (ts.map Json.str)) →
          String.intercalate " / " ts ≠ "" →
          ∃ it : SchemaItem,
            buildSchemaItem (Json.obj fields) (trimString txt) "json-ld" = Except.ok it ∧
            extractJsonLd [(txt, Except.ok (Json.obj fields))] = [it] ∧
            it.schemaType = String.intercalate " / " ts)) ∧
     (∀ (nodes : List Json) (its : List SchemaItem),
        lookupLast fields "@graph" = some (Json.arr nodes) →
        List.Forall₂
          (fun n it => buildSchemaItem n (trimString txt) "json-ld" = Except.ok it) nodes its →
        extractJsonLd [(txt, Except.ok (Json.obj fields))] = its ∧
        its.length = nodes.length)) := by
  have hx : extractJsonLd [(txt, Except.ok (Json.obj fields))] =
      jsonLdScriptItems (trimString txt) (Json.obj fields) := by
    simp [extractJsonLd, scriptItems, htrim]
  constructor
  · intro hg
    have hone : ∀ it : SchemaItem,
        buildSchemaItem (Json.obj fields) (trimString txt) "json-ld" = Except.ok it →
        extractJsonLd [(txt, Except.ok (Json.obj fields))] = [it] := by
      intro it hit
      rw [hx]
      simp [jsonLdScriptItems, jsGet, hg, hit]
    refine ⟨hone, ?_⟩
    intro ts htype hne'
    have hj : jsTruthy (Json.str (String.intercalate " / " ts)) = true := by
      simp [jsTruthy]
      exact hne'
    have hb : buildSchemaItem (Json.obj fields) (trimString txt) "json-ld" = Except.ok
        { schemaType := String.intercalate " / " ts
          source := "json-ld"
          properties := fields.filter (fun kv => !(startsWithStr kv.1 "@"))
          raw := takeStr (trimString txt) 500
          evalLabel := (evaluateSchema (String.intercalate " / " ts)
            (fields.filter (fun kv => !(startsWithStr kv.1 "@")))).1
          evalNote := (evaluateSchema (String.intercalate " / " ts)
            (fields.filter (fun kv => !(startsWithStr kv.1 "@")))).2 } := by
      simp [buildSchemaItem, jsGet, htype, joinJs_strs, hj, jsEntries]
    exact ⟨_, hb, hone _ hb, rfl⟩
  · intro nodes its hg hfa
    constructor
    · rw [hx]
      simp [jsonLdScriptItems, jsGet, hg, jsTruthy]
      exact graphLoop_forall₂ _ _ _ hfa
    · exact hfa.length_eq.symm

theorem c2_jsonld_amended_witness :
    extractJsonLd [("x", Except.ok (Json.obj
        [("@type", Json.str "Article"), ("name", Json.str "n")]))] =
      [{ schemaType := "Article", source := "json-ld",
         properties := [("name", Json.str "n")], raw := "x",
         evalLabel := EVAL_GOOD, evalNote := "1個のプロパティ" }] := by
  have h := ((c2_jsonld_amended "x"
      [("@type", Json.str "Article"), ("name", Json.str "n")] (by decide)).1 rfl).1
    { schemaType := "Article", source := "json-ld",
      properties := [("name", Json.str "n")], raw := "x",
      evalLabel := EVAL_GOOD, evalNote := "1個のプロパティ" } rfl
  exact h

/-- C3 counterexample: a script tag whose text is empty — which is not
valid JSON, `JSON.parse("")` throws — is skipped by `if (!raw) return`
before parsing, so extraction emits ZERO items for it, refuting the claim
that every invalid-JSON script yields exactly one error item. -/
theorem c3_parse_error_counterexample :
    extractJsonLd [("", Except.error "SyntaxError: Unexpected end of JSON input")] = [] ∧
    (extractJsonLd [("", Except.error "SyntaxError: Unexpected end of JSON input")]).length ≠ 1 := by
  exact ⟨rfl, by decide⟩

/-- C3 (amended): for a script tag whose trimmed text is nonempty and not
valid JSON, extraction emits exactly one error-labeled item — with empty
properties, the parse-error schema type, a note naming the failure, and
raw equal to the first 200 characters of the trimmed text — and the
extraction of every other script on the page is unaffected. -/
theorem c3_parse_error_amended (pre post : List (String × Except String Json))
    (txt e : String) (htrim : trimString txt ≠ "") :
    extractJsonLd (pre ++ (txt, Except.error e) :: post) =
      extractJsonLd pre ++
      ({ schemaType := "(JSON解析エラー)", source := "json-ld", properties := [],
         raw := takeStr (trimString txt) 200, evalLabel := EVAL_ERROR,
         evalNote := "JSONパースエラー: " ++ e } : SchemaItem) :: extractJsonLd post := by
  rw [extractJsonLd_append]
  congr 1
  simp [extractJsonLd, scriptItems, htrim, parseErrorItem]

theorem c3_parse_error_amended_witness :
    extractJsonLd [("not json", Except.error "SyntaxError: Unexpected token"),
                   ("x", Except.ok (Json.obj [("@type", Json.str "Article")]))] =
      extractJsonLd [] ++
      ({ schemaType := "(JSON解析エラー)", source := "json-ld", properties := [],
         raw := takeStr (trimString "not json") 200, evalLabel := EVAL_ERROR,
         evalNote := "JSONパースエラー: " ++ "SyntaxError: Unexpected token" } : SchemaItem) ::
      extractJsonLd [("x", Except.ok (Json.obj [("@type", Json.str "Article")]))] :=
  c3_parse_error_amended [] [("x", Except.ok (Json.obj [("@type", Json.str "Article")]))]
    "not json" "SyntaxError: Unexpected token" (by decide)

/-- C4: with found types exactly `{"WebPage"}` and page text containing
the FAQ indicator `よくある質問` but no review indicator, the high bucket
is exactly the local-business gap, the BreadcrumbList gap and the FAQPage
gap in that order, and the mid bucket is the Service gap followed by the
WebSite gap. -/
theorem c4_missing_gaps (pageText : String)
    (hfaq : strIncludes pageText "よくある質問" = true)
    (hrev : ∀ ind ∈ reviewIndicators, strIncludes pageText ind = false) :
    (checkMissingSchemas ["WebPage"] pageText).high = [lbGap, bcGap, faqGap] ∧
    (checkMissingSchemas ["WebPage"] pageText).mid = [serviceGap, websiteGap] := by
  have hfc : faqIndicators.any (fun ind => strIncludes pageText ind) = true := by
    simp [faqIndicators, hfaq]
  have hr1 := hrev "口コミ" (by simp [reviewIndicators])
  have hr2 := hrev "レビュー" (by simp [reviewIndicators])
  have hr3 := hrev "評価" (by simp [reviewIndicators])
  have hr4 := hrev "評判" (by simp [reviewIndicators])
  have hr5 := hrev "星" (by simp [reviewIndicators])
  have hr6 := hrev "★" (by simp [reviewIndicators])
  have hrc : reviewIndicators.any (fun ind => strIncludes pageText ind) = false := by
    simp [reviewIndicators, hr1, hr2, hr3, hr4, hr5, hr6]
  have hwp : ¬ ("WebPage" ∈ FUNERAL_HOME_TYPES) := by decide
  constructor
  · simp [checkMissingSchemas, hfc, hwp]
  · simp [checkMissingSchemas, hrc, hwp]

theorem c4_missing_gaps_witness :
    (checkMissingSchemas ["WebPage"] "よくある質問").high = [lbGap, bcGap, faqGap] ∧
    (checkMissingSchemas ["WebPage"] "よくある質問").mid = [serviceGap, websiteGap] :=
  c4_missing_gaps "よくある質問" (by decide) (by decide)

/-- C7: the audit and its Markdown rendering are deterministic.  The
source functions read no clock, random source or other ambient state, so
they embed as pure functions of the page model; running the audit twice
on the same input yields the same `SchemaAuditResult`, and rendering the
same result twice yields the same string. -/
theorem c7_audit_deterministic (p : PageModel) (r : SchemaAuditResult) :
    audit p = audit p ∧ formatAuditReport r = formatAuditReport r :=
  ⟨rfl, rfl⟩

/-- C8: the page-info extractor always returns exactly the keys title,
telephone, postal_code, address, opening_hours, url and domain, in that
order, each bound to a string — also when there is no title, no phone,
postal-code, address or opening-hours match, and when the URL does not
parse (`hostname = none`). -/
theorem c8_pageinfo_keys (p : PageModel) :
    (extractPageInfo p).map Prod.fst =
      ["title", "telephone", "postal_code", "address", "opening_hours", "url", "domain"] :=
  rfl

/-- C9: a JSON-LD block declaring `@type` as the array
`["FuneralHome", "LocalBusiness"]` yields the schemaType
`"FuneralHome / LocalBusiness"`, which is not a member of
`FUNERAL_HOME_TYPES`; consequently the missing-schema detector still
reports the local-business gap first and the synthesizer still generates
the local-business snippet. -/
theorem c9_type_array_join :
    (extractJsonLd [("x", Except.ok (Json.obj
        [("@type", Json.arr [Json.str "FuneralHome", Json.str "LocalBusiness"]),
         ("name", Json.str "X")]))]).map (fun s => s.schemaType) =
      ["FuneralHome / LocalBusiness"] ∧
    FUNERAL_HOME_TYPES.contains "FuneralHome / LocalBusiness" = false ∧
    (∀ pageText : String,
      (checkMissingSchemas ["FuneralHome / LocalBusiness"] pageText).high.head? = some lbGap) ∧
    (∀ (fs : List SchemaItem) (info : List (String × String)) (pageText : String),
      ∃ g ∈ generateJsonLd fs ["FuneralHome / LocalBusiness"] info pageText,
        g.priority = "高" ∧ g.type = "FuneralHome（LocalBusiness派生）") := by
  have hm : ¬ ("FuneralHome / LocalBusiness" ∈ FUNERAL_HOME_TYPES) := by decide
  refine ⟨rfl, by decide, ?_, ?_⟩
  · intro pageText
    simp [checkMissingSchemas, hm]
  · intro fs info pageText
    refine ⟨{ priority := "高", type := "FuneralHome（LocalBusiness派生）",
              schema := lbSchema info }, ?_, rfl, rfl⟩
    simp [generateJsonLd]
    exact Or.inl (by decide)

/-- C10: the detector's FAQ indicator list contains `"Q."` while the
generator's does not; hence for page text containing `"Q."` but none of
the generator's three indicators, with `FAQPage` absent, a high-priority
FAQPage gap is reported while no FAQPage snippet is generated. -/
theorem c10_faq_indicator_mismatch (pageText : String) (foundTypes : List String)
    (fs : List SchemaItem) (info : List (String × String))
    (h1 : strIncludes pageText "Q." = true)
    (h2 : strIncludes pageText "よくある質問" = false)
    (h3 : strIncludes pageText "FAQ" = false)
    (h4 : strIncludes pageText "Q&A" = false)
    (h5 : foundTypes.contains "FAQPage" = false) :
    faqGap ∈ (checkMissingSchemas foundTypes pageText).high ∧
    ∀ g ∈ generateJsonLd fs foundTypes info pageText, g.type ≠ "FAQPage" := by
  constructor
  · have hfc : faqIndicators.any (fun ind => strIncludes pageText ind) = true := by
      simp [faqIndicators, h1, h2, h3, h4]
    simp [checkMissingSchemas, hfc, h5]
    exact Or.inr (Or.inr (by simpa using h5))
  · intro g hg
    have hgen : faqIndicatorsGen.any (fun ind => strIncludes pageText ind) = false := by
      simp [faqIndicatorsGen, h2, h3, h4]
    simp only [generateJsonLd] at hg
    rw [hgen] at hg
    simp only [Bool.false_and, if_neg (by simp : ¬(false = true)), List.append_nil] at hg
    rcases List.mem_append.mp hg with h | h
    · split at h
      · simp at h
        subst h
        simp
      · simp at h
    · split at h
      · simp at h
      · simp at h
        subst h
        simp

theorem c10_faq_indicator_mismatch_witness :
    faqGap ∈ (checkMissingSchemas [] "Q. 定休日").high ∧
    ∀ g ∈ generateJsonLd [] [] [] "Q. 定休日", g.type ≠ "FAQPage" :=
  c10_faq_indicator_mismatch "Q. 定休日" [] [] []
    (by decide) (by decide) (by decide) (by decide) (by decide)
